import Mathlib

/-!
Shallow embedding of `src/automation.py` (schedule monitor pipeline) and
`compare_dataframes`, `update_supabase`, `send_email_notification`,
`extract_schedule_table`, `get_data_hash` together with the `__main__`
control flow, followed by theorems settling the spec's claims.

Modelling conventions:
* A pandas DataFrame is a `Table`: a list of column names and a list of rows,
  each row a list of cell strings (all cells are text in this program).
* `df.to_dict('records')` is `records`: each row becomes the column/value
  pair list obtained by zipping the columns with the row.
* `df.empty` (true when either axis has length 0) is `Table.isEmptyDf`.
* Python sets of key values are modelled by lists used only through
  membership (`List.contains`), which matches set semantics.
* External effects (HTTP fetch, store writes, email transport) are inputs:
  the fetch result is an `Option Table`, store-write success and email
  transport success are booleans; the run function records which effects
  were performed in a `RunOutcome`.
-/

namespace Automation

/-- A record in the sense of pandas `to_dict('records')`: an ordered
column-name/cell-text mapping. -/
abbrev Rec := List (String × String)

/-- A pandas DataFrame of the pipeline: header-derived column names and
ordered rows of cell strings. -/
structure Table where
  cols : List String
  rows : List (List String)
deriving Repr, DecidableEq

/-- Model of pandas `df.empty`: true when the frame has no rows or no
columns (either axis length is 0). -/
def Table.isEmptyDf (t : Table) : Bool :=
  t.rows.isEmpty || t.cols.isEmpty

/-- Model of `df.to_dict('records')`: one column/value list per row, in row
order. -/
def records (t : Table) : List Rec :=
  t.rows.map (fun r => t.cols.zip r)

/-- Cell of a row in the column named `c`: model of selecting column `c`
(`df[c]`) at that row. Rows are positional, so the cell is the entry at the
index of `c` in the column list. -/
def cellAt (cols : List String) (row : List String) (c : String) : String :=
  row.getD (cols.indexOf c) ""

/-- Model of `df[c].values`: the values of column `c`, one per row, in row
order. -/
def keyVals (t : Table) (c : String) : List String :=
  t.rows.map (fun r => cellAt t.cols r c)

/-- The ChangeSet produced by `compare_dataframes`: the Python function
returns a dict with keys `added`, `removed`, `modified` (the last is never
populated). -/
structure ChangeSet where
  added : List Rec
  removed : List Rec
  modified : List Rec
deriving Repr, DecidableEq

/-- Model of line 166 of automation.py: the old key set is the key column's
values in `old_df` when that column exists there, and empty otherwise
(`set(old_df[key_col].values) if key_col in old_df.columns else set()`). -/
def oldKeysOf (old_df : Table) (key_col : String) : List String :=
  if old_df.cols.contains key_col then keyVals old_df key_col else []

/-- Embedding of `compare_dataframes(old_df, new_df)` (automation.py lines
146-179).  If `old_df` is empty every record of `new_df` is added; otherwise
the first column of `new_df` is the key, `old_keys`/`new_keys` are the key
column values (the old side empty when the key column is absent from
`old_df`), and added/removed rows are selected by membership in the key-set
differences, preserving row order. -/
def compare_dataframes (old_df new_df : Table) : ChangeSet :=
  if old_df.isEmptyDf then
    ⟨records new_df, [], []⟩
  else if new_df.cols.length > 0 then
    let key_col := new_df.cols.headD ""
    let old_keys := oldKeysOf old_df key_col
    let new_keys := keyVals new_df key_col
    let added_keys := new_keys.filter (fun v => !(old_keys.contains v))
    let removed_keys := old_keys.filter (fun v => !(new_keys.contains v))
    let added :=
      if added_keys.length > 0 then
        (new_df.rows.filter
          (fun r => added_keys.contains (cellAt new_df.cols r key_col))).map
          (fun r => new_df.cols.zip r)
      else []
    let removed :=
      if removed_keys.length > 0 then
        (old_df.rows.filter
          (fun r => removed_keys.contains (cellAt old_df.cols r key_col))).map
          (fun r => old_df.cols.zip r)
      else []
    ⟨added, removed, []⟩
  else ⟨[], [], []⟩

/-- Whitespace stripping of a cell text, the model of BeautifulSoup's
`get_text(strip=True)` (leading and trailing whitespace removed).  Written
structurally on the character list so that concrete witnesses evaluate
inside the kernel (`String.trim` itself is not kernel-reducible). -/
def trimStr (s : String) : String :=
  String.mk (((s.data.dropWhile Char.isWhitespace).reverse.dropWhile
    Char.isWhitespace).reverse)

/-- Embedding of the parsing half of `extract_schedule_table` (automation.py
lines 26-77).  The input abstracts the fetched page: `none` when the HTTP
request failed or the page has no `<table>`; otherwise the list of `<tr>`
elements of the first table, each a list of raw cell texts (`<th>`/`<td>`).
`get_text(strip=True)` is modelled by `trimStr` on each cell.  The first
`<tr>` gives the headers, the remaining `<tr>`s give the data rows, and a row
with zero cell elements is dropped.  `pd.DataFrame(rows, columns=headers)`
raises (the exception is caught, yielding `None`) when some row is wider
than the header list; pandas would NaN-pad narrower rows, which no claim
exercises, so any width mismatch is modelled as failure. -/
def extract_schedule_table (page : Option (List (List String))) : Option Table :=
  match page with
  | none => none
  | some trs =>
    let table_headers := (trs.headD []).map trimStr
    let rows := ((trs.drop 1).map (fun tr => tr.map trimStr)).filter
      (fun r => !r.isEmpty)
    if !rows.isEmpty && !table_headers.isEmpty &&
        rows.all (fun r => r.length == table_headers.length) then
      some ⟨table_headers, rows⟩
    else
      none

/-- Embedding of `get_data_hash(df)` (automation.py lines 85-88): the md5
hex digest of `df.to_json(orient='records')`.  The pipeline uses the digest
only in an equality test, so the digest is modelled by the serialized
content itself, the record list. -/
def get_data_hash (t : Table) : List Rec :=
  records t

/-- Model of `old_hash = get_data_hash(old_df) if not old_df.empty else ""`
(automation.py line 305): the sentinel `""` is `none` (an md5 hex digest is
never the empty string, so the sentinel never collides with a digest). -/
def oldHashOpt (t : Table) : Option (List Rec) :=
  if t.isEmptyDf then none else some (get_data_hash t)

/-- Environment configuration read by the program: `os.getenv` returns the
variable's string or `None`. -/
structure Config where
  SUPABASE_URL : Option String
  SUPABASE_KEY : Option String
  SENDGRID_API_KEY : Option String
  SENDER_EMAIL : Option String
  RECIPIENT_EMAIL : Option String
deriving Repr, DecidableEq

/-- Python truthiness of an optional environment string: `None` and the
empty string are falsy. -/
def truthy : Option String → Bool
  | none => false
  | some s => !s.isEmpty

/-- Error message of the `ValueError` raised by `initialize_supabase` when
either store credential is falsy (automation.py line 82). -/
def supabaseConfigMsg : String :=
  "SUPABASE_URL and SUPABASE_KEY must be set in environment variables"

/-- Embedding of `initialize_supabase` (automation.py lines 79-83): raises
`ValueError` when either `SUPABASE_URL` or `SUPABASE_KEY` is falsy,
otherwise yields a client (modelled by unit). -/
def initSupabase (c : Config) : Except String Unit :=
  if !(truthy c.SUPABASE_URL) || !(truthy c.SUPABASE_KEY) then
    .error supabaseConfigMsg
  else
    .ok ()

/-- A row of the persisted Supabase collection: the auto-created integer
`id` plus the stored field mapping. -/
structure StoreRow where
  id : Int
  fields : Rec
deriving Repr, DecidableEq

/-- Embedding of the data effect of `update_supabase(supabase, new_df)`
(automation.py lines 101-118) on the persisted collection, for the
successful (exception-free) path: `delete().neq('id', 0)` removes every
stored row whose `id` differs from 0, then each record of `new_df` is
inserted in order with a `scraped_at` timestamp field appended (`now` is
`datetime.now().isoformat()`; `assignId` gives the id the store assigns to
the i-th inserted row). -/
def update_supabase (store : List StoreRow) (new_df : Table) (now : String)
    (assignId : Nat → Int) : List StoreRow :=
  let remaining := store.filter (fun r => r.id == 0)
  remaining ++ (records new_df).enum.map
    (fun p => ⟨assignId p.1, p.2 ++ [("scraped_at", now)]⟩)

/-- Result classification of `send_email_notification`: the function skips
(incomplete configuration), sends successfully, or hits a transport error. -/
inductive NotifyResult where
  | sent
  | skipped
  | sendError
deriving Repr, DecidableEq

/-- The three email configuration values are all truthy: model of
`all([SENDGRID_API_KEY, SENDER_EMAIL, RECIPIENT_EMAIL])` (automation.py
line 122). -/
def emailConfigComplete (c : Config) : Bool :=
  truthy c.SENDGRID_API_KEY && truthy c.SENDER_EMAIL && truthy c.RECIPIENT_EMAIL

/-- Outcome of `send_email_notification`: whether `sg.send` was called, the
result classification, and the boolean the Python function returns. -/
structure EmailOutcome where
  sendCalled : Bool
  result : NotifyResult
  retval : Bool
deriving Repr, DecidableEq

/-- Embedding of `send_email_notification(subject, body)` (automation.py
lines 120-144): when any of the three email configuration values is falsy
it returns `False` without calling the send API; otherwise it calls
`sg.send`, returning `True` on success and `False` on a transport exception
(`transportOk` abstracts the external transport). -/
def send_email_notification (c : Config) (transportOk : Bool) : EmailOutcome :=
  if !(emailConfigComplete c) then
    ⟨false, .skipped, false⟩
  else if transportOk then
    ⟨true, .sent, true⟩
  else
    ⟨true, .sendError, false⟩

/-- Observable outcome of one `__main__` run: which effects were performed
and the process exit code.  Field order: `fetchPerformed`, `configError`
(the `ValueError` message when `initialize_supabase` raised),
`storeReadPerformed`, `storeWriteAttempted`, `storeReplaced`,
`emailSendCalled`, `emailResult`, `exitCode`. -/
structure RunOutcome where
  fetchPerformed : Bool
  configError : Option String
  storeReadPerformed : Bool
  storeWriteAttempted : Bool
  storeReplaced : Bool
  emailSendCalled : Bool
  emailResult : Option NotifyResult
  exitCode : Nat
deriving Repr, DecidableEq

/-- Embedding of the `__main__` control flow (automation.py lines 275-336).
`fetchResult` is what `extract_schedule_table()` returned (the fetch is the
first action of the run); `oldDf` is what `fetch_existing_data` returned
(read errors already degrade to an empty frame inside it);
`storeWriteOk` abstracts whether `update_supabase` succeeds;
`emailTransportOk` abstracts the email transport.  `exit(1)` raises
`SystemExit`, which the `except Exception` handler does not catch; the
`ValueError` from `initialize_supabase` is caught there and leads to
`exit(1)`.  A run that falls through to the end exits 0. -/
def runPipeline (c : Config) (fetchResult : Option Table) (oldDf : Table)
    (storeWriteOk : Bool) (emailTransportOk : Bool) : RunOutcome :=
  match fetchResult with
  | none =>
    -- "Failed to extract table data" then exit(1); Supabase never touched.
    ⟨true, none, false, false, false, false, none, 1⟩
  | some newDf =>
    if !(truthy c.SUPABASE_URL) || !(truthy c.SUPABASE_KEY) then
      -- initialize_supabase raises; the top-level handler prints and exits 1.
      ⟨true, some supabaseConfigMsg, false, false, false, false, none, 1⟩
    else
      if some (get_data_hash newDf) ≠ oldHashOpt oldDf then
        if (compare_dataframes oldDf newDf).added.length > 0 ∨
            (compare_dataframes oldDf newDf).removed.length > 0 then
          if storeWriteOk then
            ⟨true, none, true, true, true,
             (send_email_notification c emailTransportOk).sendCalled,
             some (send_email_notification c emailTransportOk).result, 0⟩
          else
            -- "Failed to update Supabase" is printed but the run continues
            -- to "Process completed successfully" and exits 0.
            ⟨true, none, true, true, false, false, none, 0⟩
        else
          -- hash differs, no actual row changes: skip update and email.
          ⟨true, none, true, false, false, false, none, 0⟩
      else
        -- hashes equal: data is up to date.
        ⟨true, none, true, false, false, false, none, 0⟩

/-- Example old snapshot with key column City and keys A, B, C. -/
def oldABC : Table :=
  ⟨["City", "Date"], [["A", "1"], ["B", "2"], ["C", "3"]]⟩

/-- Example new snapshot with keys B, C, D (C's Date field changed). -/
def newBCD : Table :=
  ⟨["City", "Date"], [["B", "2"], ["C", "9"], ["D", "4"]]⟩

/-- Example snapshot with keys A then B. -/
def orderAB : Table :=
  ⟨["City"], [["A"], ["B"]]⟩

/-- The same row set as `orderAB` in the opposite order. -/
def orderBA : Table :=
  ⟨["City"], [["B"], ["A"]]⟩

/-- Fully populated configuration. -/
def cfgFull : Config :=
  ⟨some "https://example.supabase.co", some "service-key",
   some "sendgrid-key", some "sender@example.com", some "rcpt@example.com"⟩

/-- Configuration with store credentials but no email credentials. -/
def cfgNoEmail : Config :=
  ⟨some "https://example.supabase.co", some "service-key", none, none, none⟩

/-- Configuration with the store credentials missing. -/
def cfgNoStore : Config :=
  ⟨none, none, some "sendgrid-key", some "sender@example.com",
   some "rcpt@example.com"⟩

/-- Old snapshot that does not contain the key column City of `newBCD`. -/
def oldNoKey : Table :=
  ⟨["id", "x"], [["7", "q"]]⟩

/-- Membership in a filtered list, in boolean form: an element is in the
filtered list exactly when it is in the original list and satisfies the
filter. -/
theorem contains_filter (l : List String) (p : String → Bool) (x : String) :
    (l.filter p).contains x = (l.contains x && p x) := by
  induction l with
  | nil => simp
  | cons a as ih =>
    by_cases hx : x = a
    · subst hx
      cases hp : p x <;>
        simp [List.filter_cons, List.contains_cons, hp, ih]
    · cases hp : p a <;>
        simp [List.filter_cons, List.contains_cons, hp, ih, hx]

/-- Core shape of `compare_dataframes` when the old frame is non-empty and
the new frame has a first column `k`: added rows are the rows of `new_df`
whose key column value lies in the new key set but not the old one, removed
rows dually, both `to_dict('records')`-serialized in original row order. -/
theorem compare_core (old_df new_df : Table) (k : String) (cs : List String)
    (hold : old_df.isEmptyDf = false) (hcols : new_df.cols = k :: cs) :
    compare_dataframes old_df new_df =
      ⟨(new_df.rows.filter (fun r =>
          (keyVals new_df k).contains (cellAt new_df.cols r k) &&
          !((oldKeysOf old_df k).contains (cellAt new_df.cols r k)))).map
          (fun r => new_df.cols.zip r),
       (old_df.rows.filter (fun r =>
          (oldKeysOf old_df k).contains (cellAt old_df.cols r k) &&
          !((keyVals new_df k).contains (cellAt old_df.cols r k)))).map
          (fun r => old_df.cols.zip r),
       []⟩ := by
  have hlen : new_df.cols.length > 0 := by simp [hcols]
  have hhead : new_df.cols.headD "" = k := by simp [hcols]
  have hadded :
      (if ((keyVals new_df k).filter
            (fun v => !((oldKeysOf old_df k).contains v))).length > 0 then
        (new_df.rows.filter (fun r =>
          ((keyVals new_df k).filter
            (fun v => !((oldKeysOf old_df k).contains v))).contains
            (cellAt new_df.cols r k))).map (fun r => new_df.cols.zip r)
      else []) =
      (new_df.rows.filter (fun r =>
          (keyVals new_df k).contains (cellAt new_df.cols r k) &&
          !((oldKeysOf old_df k).contains (cellAt new_df.cols r k)))).map
          (fun r => new_df.cols.zip r) := by
    split
    · refine congrArg _ (List.filter_congr ?_)
      intro r _
      exact contains_filter _ _ _
    · rename_i hlen0
      have hnil : ((keyVals new_df k).filter
          (fun v => !((oldKeysOf old_df k).contains v))) = [] :=
        List.eq_nil_of_length_eq_zero (Nat.eq_zero_of_not_pos hlen0)
      have hzero : new_df.rows.filter (fun r =>
          (keyVals new_df k).contains (cellAt new_df.cols r k) &&
          !((oldKeysOf old_df k).contains (cellAt new_df.cols r k))) = [] := by
        refine List.filter_eq_nil_iff.mpr ?_
        intro r _
        have hcf := contains_filter (keyVals new_df k)
          (fun v => !((oldKeysOf old_df k).contains v)) (cellAt new_df.cols r k)
        rw [hnil] at hcf
        simp at hcf ⊢
        exact hcf
      rw [hzero]
      rfl
  have hremoved :
      (if ((oldKeysOf old_df k).filter
            (fun v => !((keyVals new_df k).contains v))).length > 0 then
        (old_df.rows.filter (fun r =>
          ((oldKeysOf old_df k).filter
            (fun v => !((keyVals new_df k).contains v))).contains
            (cellAt old_df.cols r k))).map (fun r => old_df.cols.zip r)
      else []) =
      (old_df.rows.filter (fun r =>
          (oldKeysOf old_df k).contains (cellAt old_df.cols r k) &&
          !((keyVals new_df k).contains (cellAt old_df.cols r k)))).map
          (fun r => old_df.cols.zip r) := by
    split
    · refine congrArg _ (List.filter_congr ?_)
      intro r _
      exact contains_filter _ _ _
    · rename_i hlen0
      have hnil : ((oldKeysOf old_df k).filter
          (fun v => !((keyVals new_df k).contains v))) = [] :=
        List.eq_nil_of_length_eq_zero (Nat.eq_zero_of_not_pos hlen0)
      have hzero : old_df.rows.filter (fun r =>
          (oldKeysOf old_df k).contains (cellAt old_df.cols r k) &&
          !((keyVals new_df k).contains (cellAt old_df.cols r k))) = [] := by
        refine List.filter_eq_nil_iff.mpr ?_
        intro r _
        have hcf := contains_filter (oldKeysOf old_df k)
          (fun v => !((keyVals new_df k).contains v)) (cellAt old_df.cols r k)
        rw [hnil] at hcf
        simp at hcf ⊢
        exact hcf
      rw [hzero]
      rfl
  rw [compare_dataframes, if_neg (by simp [hold]), if_pos hlen, hhead]
  simp only [hadded, hremoved]

/-- Claim C5: for a non-empty old table and a new table whose first column
`k` also occurs in the old table, the diff returns as added exactly the
rows of the new table whose key value lies in the new key set minus the old
key set, and as removed exactly the rows of the old table whose key value
lies in the old key set minus the new key set, in original row order; rows
whose key occurs in both tables are never reported. -/
theorem diff_key_set_difference (old_df new_df : Table) (k : String)
    (cs : List String)
    (hold : old_df.isEmptyDf = false)
    (hcols : new_df.cols = k :: cs)
    (hk : old_df.cols.contains k = true) :
    (compare_dataframes old_df new_df).added =
      (new_df.rows.filter (fun r =>
        (keyVals new_df k).contains (cellAt new_df.cols r k) &&
        !((keyVals old_df k).contains (cellAt new_df.cols r k)))).map
        (fun r => new_df.cols.zip r) ∧
    (compare_dataframes old_df new_df).removed =
      (old_df.rows.filter (fun r =>
        (keyVals old_df k).contains (cellAt old_df.cols r k) &&
        !((keyVals new_df k).contains (cellAt old_df.cols r k)))).map
        (fun r => old_df.cols.zip r) := by
  have hok : oldKeysOf old_df k = keyVals old_df k := by
    rw [oldKeysOf, if_pos hk]
  rw [compare_core old_df new_df k cs hold hcols]
  rw [hok]
  exact ⟨rfl, rfl⟩

/-- Witness for C5 on the spec's own example: old keys A, B, C and new keys
B, C, D (with a field change for C) yield added = the D row and removed =
the A row. -/
theorem diff_key_set_difference_witness :
    (compare_dataframes oldABC newBCD).added = [[("City", "D"), ("Date", "4")]] ∧
    (compare_dataframes oldABC newBCD).removed = [[("City", "A"), ("Date", "1")]] := by
  have h := diff_key_set_difference oldABC newBCD "City" ["Date"]
    (by decide) rfl (by decide)
  exact ⟨h.1.trans (by decide), h.2.trans (by decide)⟩

/-- Claim C6: diffing against the empty old table (the bootstrap case)
reports every record of the new table as added, in row order, and nothing
as removed. -/
theorem diff_bootstrap (T : Table) :
    compare_dataframes ⟨[], []⟩ T = ⟨records T, [], []⟩ := by
  rw [compare_dataframes, if_pos (by rfl)]

/-- Claim C7: diffing a table against itself yields an empty ChangeSet.
The hypothesis excludes the degenerate frame with rows but no columns,
which no pipeline stage produces (a ScheduleTable always has a header). -/
theorem diff_self_empty (T : Table) (h : T.cols ≠ [] ∨ T.rows = []) :
    compare_dataframes T T = ⟨[], [], []⟩ := by
  rcases Decidable.em (T.rows = []) with hr | hr
  · rw [compare_dataframes, if_pos (by simp [Table.isEmptyDf, hr])]
    simp [records, hr]
  · have hc : T.cols ≠ [] := h.resolve_right hr
    obtain ⟨c, cs, hcs⟩ := List.exists_cons_of_ne_nil hc
    have hemp : T.isEmptyDf = false := by
      simp [Table.isEmptyDf, hr, hc]
    rw [compare_core T T c cs hemp hcs]
    have hok : oldKeysOf T c = keyVals T c := by
      rw [oldKeysOf, if_pos (by rw [hcs]; simp)]
    rw [hok]
    have hz : ∀ (rs : List (List String)) (cols : List String),
        rs.filter (fun r =>
          (keyVals T c).contains (cellAt cols r c) &&
          !((keyVals T c).contains (cellAt cols r c))) = [] := by
      intro rs cols
      refine List.filter_eq_nil_iff.mpr ?_
      intro r _
      cases hm : (keyVals T c).contains (cellAt cols r c) <;> simp [hm]
    simp [hz]

/-- Witness for C7 at a concrete table. -/
theorem diff_self_empty_witness :
    (newBCD.cols ≠ [] ∨ newBCD.rows = []) ∧
    compare_dataframes newBCD newBCD = ⟨[], [], []⟩ :=
  ⟨Or.inl (by decide), diff_self_empty newBCD (Or.inl (by decide))⟩

/-- Claim C10: when the old table is non-empty but lacks the key column
(the first column of the new table), the old key set is treated as empty,
so every record of the new table is added and nothing is removed. -/
theorem diff_missing_key_column (old_df new_df : Table) (k : String)
    (cs : List String)
    (hold : old_df.isEmptyDf = false)
    (hcols : new_df.cols = k :: cs)
    (hk : old_df.cols.contains k = false) :
    (compare_dataframes old_df new_df).added = records new_df ∧
    (compare_dataframes old_df new_df).removed = [] := by
  have hok : oldKeysOf old_df k = [] := by
    rw [oldKeysOf, if_neg (by simpa using hk)]
  rw [compare_core old_df new_df k cs hold hcols, hok]
  constructor
  · have hall : new_df.rows.filter (fun r =>
        (keyVals new_df k).contains (cellAt new_df.cols r k) &&
        !(([] : List String).contains (cellAt new_df.cols r k))) = new_df.rows := by
      refine List.filter_eq_self.mpr ?_
      intro r hr
      have hmem : cellAt new_df.cols r k ∈ keyVals new_df k :=
        List.mem_map_of_mem (fun r => cellAt new_df.cols r k) hr
      simp [hmem]
    simp only [hall]
    rfl
  · simp

/-- Witness for C10: the old snapshot has columns id, x (no City), so all
rows of the new snapshot are added and none removed. -/
theorem diff_missing_key_column_witness :
    (compare_dataframes oldNoKey newBCD).added = records newBCD ∧
    (compare_dataframes oldNoKey newBCD).removed = [] :=
  diff_missing_key_column oldNoKey newBCD "City" ["Date"]
    (by decide) rfl (by decide)

/-- Claim C8: for a well-formed first table whose header row has H ≥ 1
cells and whose R ≥ 1 data rows each have exactly H cells, extraction
succeeds and returns the trimmed headers with exactly R rows, each of
exactly H fields in header order. -/
theorem extract_well_formed (hr : List String) (ds : List (List String))
    (h1 : hr ≠ []) (h2 : ds ≠ [])
    (h3 : ∀ d ∈ ds, d.length = hr.length) :
    extract_schedule_table (some (hr :: ds)) =
      some ⟨hr.map trimStr, ds.map (fun d => d.map trimStr)⟩ ∧
    (ds.map (fun d => d.map trimStr)).length = ds.length ∧
    ∀ r ∈ ds.map (fun d => d.map trimStr), r.length = hr.length := by
  have hRne : ∀ d ∈ ds, d ≠ [] := by
    intro d hd hdnil
    have hlen := h3 d hd
    rw [hdnil] at hlen
    exact h1 (List.eq_nil_of_length_eq_zero hlen.symm)
  have hfilter : ((ds.map (fun d => d.map trimStr)).filter
      (fun r => !r.isEmpty)) = ds.map (fun d => d.map trimStr) := by
    refine List.filter_eq_self.mpr ?_
    intro r hrm
    obtain ⟨d, hd, rfl⟩ := List.mem_map.mp hrm
    simp [hRne d hd]
  refine ⟨?_, by simp, ?_⟩
  · have hcond : (!((ds.map (fun d => d.map trimStr)).filter
        (fun r => !r.isEmpty)).isEmpty &&
        !(hr.map trimStr).isEmpty &&
        ((ds.map (fun d => d.map trimStr)).filter
          (fun r => !r.isEmpty)).all
          (fun r => r.length == (hr.map trimStr).length)) = true := by
      rw [hfilter]
      simp [List.all_eq_true, h1, h2]
      exact h3
    simp only [extract_schedule_table, List.headD_cons, List.drop_one,
      List.tail_cons]
    rw [if_pos hcond, hfilter]
  · intro r hrm
    obtain ⟨d, hd, rfl⟩ := List.mem_map.mp hrm
    simp [h3 d hd]

/-- Witness for C8 at a concrete page with 2 headers and 2 data rows,
including trimming of cell text. -/
theorem extract_well_formed_witness :
    extract_schedule_table (some [[" City ", "Date"], ["A ", "1"], ["B", "2"]]) =
      some ⟨["City", "Date"], [["A", "1"], ["B", "2"]]⟩ := by
  have h := extract_well_formed [" City ", "Date"] [["A ", "1"], ["B", "2"]]
    (by decide) (by decide) (by decide)
  exact h.1.trans (by decide)

/-- Claim C2: on the successful path, the store update deletes every
existing row (the hypothesis records that live rows carry the store's
auto-assigned nonzero id, so the delete filter id ≠ 0 matches all of them)
and the resulting collection is exactly the records of the new table, in
order, each with the scraped_at timestamp field appended; in particular no
row of the previous snapshot remains. -/
theorem update_replaces_all (store : List StoreRow) (t : Table) (now : String)
    (assignId : Nat → Int) (h : ∀ r ∈ store, r.id ≠ 0) :
    update_supabase store t now assignId =
      (records t).enum.map
        (fun p => ⟨assignId p.1, p.2 ++ [("scraped_at", now)]⟩) ∧
    ∀ r ∈ update_supabase store t now assignId,
      ∃ rec ∈ records t, r.fields = rec ++ [("scraped_at", now)] := by
  have hdel : store.filter (fun r => r.id == 0) = [] := by
    refine List.filter_eq_nil_iff.mpr ?_
    intro r hrm
    simp [h r hrm]
  have heq : update_supabase store t now assignId =
      (records t).enum.map
        (fun p => ⟨assignId p.1, p.2 ++ [("scraped_at", now)]⟩) := by
    rw [update_supabase, hdel]
    simp
  refine ⟨heq, ?_⟩
  intro r hrm
  rw [heq] at hrm
  obtain ⟨p, hp, rfl⟩ := List.mem_map.mp hrm
  exact ⟨p.2, List.snd_mem_of_mem_enum hp, rfl⟩

/-- Witness for C2: a store with two previously persisted rows (ids 1, 2)
is fully replaced by the two timestamped records of the new table. -/
theorem update_replaces_all_witness :
    update_supabase
      [⟨1, [("City", "X"), ("scraped_at", "T0")]⟩,
       ⟨2, [("City", "Y"), ("scraped_at", "T0")]⟩]
      orderAB "T1" (fun i => Int.ofNat i + 10) =
      [⟨10, [("City", "A"), ("scraped_at", "T1")]⟩,
       ⟨11, [("City", "B"), ("scraped_at", "T1")]⟩] := by
  have h := update_replaces_all
    [⟨1, [("City", "X"), ("scraped_at", "T0")]⟩,
     ⟨2, [("City", "Y"), ("scraped_at", "T0")]⟩]
    orderAB "T1" (fun i => Int.ofNat i + 10) (by decide)
  exact h.1.trans (by decide)

/-- Claim C1: an email is dispatched only when the computed ChangeSet has
at least one added or one removed row; and in a run whose content hash
differs from the stored one but whose diff has zero added and zero removed
rows, neither the store replacement nor the email send is performed. -/
theorem email_only_on_row_changes (c : Config) (newDf oldDf : Table)
    (sOk eOk : Bool) :
    ((runPipeline c (some newDf) oldDf sOk eOk).emailSendCalled = true →
      (compare_dataframes oldDf newDf).added ≠ [] ∨
      (compare_dataframes oldDf newDf).removed ≠ []) ∧
    (some (get_data_hash newDf) ≠ oldHashOpt oldDf →
      (compare_dataframes oldDf newDf).added = [] →
      (compare_dataframes oldDf newDf).removed = [] →
      (runPipeline c (some newDf) oldDf sOk eOk).storeWriteAttempted = false ∧
      (runPipeline c (some newDf) oldDf sOk eOk).storeReplaced = false ∧
      (runPipeline c (some newDf) oldDf sOk eOk).emailSendCalled = false) := by
  constructor
  · intro hmail
    by_contra hnot
    push_neg at hnot
    obtain ⟨ha, hb⟩ := hnot
    have hnc : ¬((compare_dataframes oldDf newDf).added.length > 0 ∨
        (compare_dataframes oldDf newDf).removed.length > 0) := by
      rw [ha, hb]
      simp
    revert hmail
    simp only [runPipeline]
    by_cases hcred : (!(truthy c.SUPABASE_URL) || !(truthy c.SUPABASE_KEY)) = true
    · rw [if_pos hcred]
      simp
    · rw [if_neg hcred]
      by_cases hh : some (get_data_hash newDf) ≠ oldHashOpt oldDf
      · rw [if_pos hh, if_neg hnc]
        simp
      · rw [if_neg hh]
        simp
  · intro hh ha hb
    have hnc : ¬((compare_dataframes oldDf newDf).added.length > 0 ∨
        (compare_dataframes oldDf newDf).removed.length > 0) := by
      rw [ha, hb]
      simp
    simp only [runPipeline]
    by_cases hcred : (!(truthy c.SUPABASE_URL) || !(truthy c.SUPABASE_KEY)) = true
    · rw [if_pos hcred]
      exact ⟨rfl, rfl, rfl⟩
    · rw [if_neg hcred, if_pos hh, if_neg hnc]
      exact ⟨rfl, rfl, rfl⟩

/-- Witness for C1 on the spec's reorder scenario: old and new snapshots
hold the same row set in different order, the content hash differs, the
diff is empty, and the run performs no store write and no email send. -/
theorem email_only_on_row_changes_witness :
    (runPipeline cfgFull (some orderBA) orderAB true true).storeWriteAttempted = false ∧
    (runPipeline cfgFull (some orderBA) orderAB true true).storeReplaced = false ∧
    (runPipeline cfgFull (some orderBA) orderAB true true).emailSendCalled = false :=
  (email_only_on_row_changes cfgFull orderBA orderAB true true).2
    (by decide) (by decide) (by decide)

/-- Counterexample to C3: in a run with both store credentials missing and
a successful page fetch, the configuration error is raised, yet the page
fetch has already been performed — the program fetches first (line 284) and
only then calls initialize_supabase (line 294), so the error is not raised
before network I/O. -/
theorem config_error_after_fetch_counterexample :
    (runPipeline cfgNoStore (some newBCD) ⟨[], []⟩ true true).configError =
      some supabaseConfigMsg ∧
    (runPipeline cfgNoStore (some newBCD) ⟨[], []⟩ true true).fetchPerformed =
      true ∧
    (runPipeline cfgNoStore (some newBCD) ⟨[], []⟩ true true).exitCode = 1 := by
  exact ⟨rfl, rfl, rfl⟩

/-- Claim C3 (amended): when either store credential is missing, the run
raises the configuration error whose message names the two store variables
and exits with code 1, before any store read, store write, or email send —
but after the page fetch, which the program always performs first. -/
theorem config_error_before_store_io (c : Config) (newDf oldDf : Table)
    (sOk eOk : Bool)
    (h : (!(truthy c.SUPABASE_URL) || !(truthy c.SUPABASE_KEY)) = true) :
    runPipeline c (some newDf) oldDf sOk eOk =
      ⟨true, some supabaseConfigMsg, false, false, false, false, none, 1⟩ ∧
    initSupabase c = .error supabaseConfigMsg := by
  constructor
  · simp only [runPipeline]
    rw [if_pos h]
  · rw [initSupabase, if_pos h]

/-- Witness for the amended C3 at the concrete credential-free
configuration. -/
theorem config_error_before_store_io_witness :
    runPipeline cfgNoStore (some newBCD) oldABC true true =
      ⟨true, some supabaseConfigMsg, false, false, false, false, none, 1⟩ ∧
    initSupabase cfgNoStore = .error supabaseConfigMsg :=
  config_error_before_store_io cfgNoStore newBCD oldABC true true (by decide)

/-- Counterexample to C4: a concrete run in which the store write fails
(full credentials, changed data with a non-empty diff, failing store)
attempts the write, sends no email, and exits with code 0 rather than 1. -/
theorem store_failure_exit_counterexample :
    (runPipeline cfgFull (some newBCD) oldABC false true).storeWriteAttempted =
      true ∧
    (runPipeline cfgFull (some newBCD) oldABC false true).storeReplaced =
      false ∧
    (runPipeline cfgFull (some newBCD) oldABC false true).emailSendCalled =
      false ∧
    (runPipeline cfgFull (some newBCD) oldABC false true).exitCode = 0 := by
  exact ⟨rfl, rfl, rfl, rfl⟩

/-- Claim C4 (amended): in every run where the store write fails, the run
aborts before notification — no email send is attempted and the snapshot is
not replaced — but the failure is only logged and the process still exits
with code 0, not 1. -/
theorem store_failure_skips_email (c : Config) (newDf oldDf : Table)
    (eOk : Bool)
    (hcred : ¬((!(truthy c.SUPABASE_URL) || !(truthy c.SUPABASE_KEY)) = true))
    (hh : some (get_data_hash newDf) ≠ oldHashOpt oldDf)
    (hch : (compare_dataframes oldDf newDf).added.length > 0 ∨
           (compare_dataframes oldDf newDf).removed.length > 0) :
    runPipeline c (some newDf) oldDf false eOk =
      ⟨true, none, true, true, false, false, none, 0⟩ := by
  simp only [runPipeline]
  rw [if_neg hcred, if_pos hh, if_pos hch, if_neg (by simp)]

/-- Witness for the amended C4 at a concrete failing-store run. -/
theorem store_failure_skips_email_witness :
    runPipeline cfgFull (some newBCD) oldABC false true =
      ⟨true, none, true, true, false, false, none, 0⟩ :=
  store_failure_skips_email cfgFull newBCD oldABC true
    (by decide) (by decide) (Or.inl (by decide))

/-- Claim C9: when any of the three email configuration values is absent,
the notifier performs no send call and reports skipped (not an error),
while a run with changed rows still replaces the store and exits with
code 0. -/
theorem email_skipped_when_unconfigured (c : Config) (newDf oldDf : Table)
    (eOk : Bool)
    (hcred : ¬((!(truthy c.SUPABASE_URL) || !(truthy c.SUPABASE_KEY)) = true))
    (hmail : emailConfigComplete c = false)
    (hh : some (get_data_hash newDf) ≠ oldHashOpt oldDf)
    (hch : (compare_dataframes oldDf newDf).added.length > 0 ∨
           (compare_dataframes oldDf newDf).removed.length > 0) :
    send_email_notification c eOk = ⟨false, .skipped, false⟩ ∧
    runPipeline c (some newDf) oldDf true eOk =
      ⟨true, none, true, true, true, false, some .skipped, 0⟩ := by
  have hse : send_email_notification c eOk = ⟨false, .skipped, false⟩ := by
    rw [send_email_notification, if_pos (by simp [hmail])]
  refine ⟨hse, ?_⟩
  simp only [runPipeline]
  rw [if_neg hcred, if_pos hh, if_pos hch, if_pos (by trivial), hse]

/-- Witness for C9: store credentials present, email credentials absent, a
changed snapshot — the store is replaced, the notification is skipped, and
the run exits 0. -/
theorem email_skipped_when_unconfigured_witness :
    send_email_notification cfgNoEmail true = ⟨false, .skipped, false⟩ ∧
    runPipeline cfgNoEmail (some newBCD) oldABC true true =
      ⟨true, none, true, true, true, false, some .skipped, 0⟩ :=
  email_skipped_when_unconfigured cfgNoEmail newBCD oldABC true
    (by decide) (by decide) (by decide) (Or.inl (by decide))

end Automation
